import Mathlib

/-!
Verification development for an OPC UA → HTTP bridge (src/app.js).

The program recursively browses an OPC UA address space to collect variable
node ids (`findVariables`), resolves each variable's built-in data type to a
canonical type name and a coercion function (`getVariableType`), and serves
the variables over HTTP (`GET /:nodeId`, `PUT /:nodeId`).

The embedding below is shallow: JavaScript values are modelled by `JSValue`
(restricted to the booleans, integers, NaN, strings, null and undefined that
the bridge's coercions are exercised on), the OPC UA session is modelled by
pure functions supplied as arguments (`browse`, `getBuiltInDataType`,
`readVariableValue`, `write`), failure of a session call by `Except`, and the
unbounded JavaScript recursion of `findVariables` by a fuel parameter, with
`none` standing for non-termination (fuel exhaustion).
-/

namespace OpcuaBridge

/-- OPC UA node classes (`EnumNodeClass` from node-opcua).  The walker
recurses into `Object` nodes, collects `Variable` nodes and skips the rest. -/
inductive NodeClass where
  | Unspecified
  | Object
  | Variable
  | Method
  | ObjectType
  | VariableType
  | ReferenceType
  | DataType
  | View
deriving DecidableEq, Repr

/-- One entry of a browse result (`node.references` in the source): a child
node id together with its node class. -/
structure Reference where
  nodeId : String
  nodeClass : NodeClass
deriving DecidableEq, Repr

/-- An address-space snapshot: what `session.browse` answers for each node id. -/
def Browse : Type := String → List Reference

/-- The inner `forEach` of `findVariables` (src/app.js lines 32–34): append
each id of `ids` to `vars` unless it is already present. -/
def appendNew (vars : List String) (ids : List String) : List String :=
  ids.foldl (fun acc id => if acc.contains id then acc else acc ++ [id]) vars

/-- One iteration of the `for (let childNode of node.references)` loop of
`findVariables`: `g` computes `childVariables` for the child (recursion for
an `Object`, a singleton for a `Variable`, empty otherwise); a `none` from
the recursion (non-termination) propagates. -/
def collectStep (g : Reference → Option (List String)) (acc : Option (List String))
    (child : Reference) : Option (List String) :=
  acc.bind fun vars => (g child).map fun childVariables => appendNew vars childVariables

/-- `findVariables` (src/app.js lines 19–38): recursively browse nodes to
collect those that are variables and return their ids.  `fuel` bounds the
recursion depth; `none` models the JavaScript function not returning. -/
def findVariables (browse : Browse) : Nat → String → Option (List String)
  | 0, _ => none
  | fuel + 1, nodeId =>
    (browse nodeId).foldl
      (collectStep fun child =>
        match child.nodeClass with
        | NodeClass.Object => findVariables browse fuel child.nodeId
        | NodeClass.Variable => some [child.nodeId]
        | _ => some [])
      (some [])

/-- A diamond-shaped address space: the root lists two containers `A` and `B`
and the same variable `v` is a child of both. -/
def diamondBrowse : Browse := fun n =>
  if n = "root" then [⟨"A", NodeClass.Object⟩, ⟨"B", NodeClass.Object⟩]
  else if n = "A" then [⟨"v", NodeClass.Variable⟩]
  else if n = "B" then [⟨"v", NodeClass.Variable⟩]
  else []

/- The node-opcua `DataType` enumeration values (OPC UA built-in type ids)
used or matched by the bridge.  The enumeration is wider than the bridge's
switch table, so the tags are modelled as natural numbers. -/
namespace DataType

def Null : Nat := 0
def Boolean : Nat := 1
def SByte : Nat := 2
def Byte : Nat := 3
def Int16 : Nat := 4
def UInt16 : Nat := 5
def Int32 : Nat := 6
def UInt32 : Nat := 7
def Int64 : Nat := 8
def UInt64 : Nat := 9
def Float : Nat := 10
def Double : Nat := 11
def String : Nat := 12
def DateTime : Nat := 13
def Guid : Nat := 14
def ByteString : Nat := 15
def XmlElement : Nat := 16
def NodeId : Nat := 17
def LocalizedText : Nat := 21

end DataType

/-- JavaScript values as the bridge manipulates them: booleans, numbers
(restricted to integers and NaN — the fragment the coercions are exercised
on; general floating point is outside this development), strings, null and
undefined. -/
inductive JSValue where
  | bool (b : Bool)
  | int (n : Int)
  | nan
  | str (s : String)
  | null
  | undefined
deriving DecidableEq, Repr

/-- ECMAScript ToBoolean (the `Boolean(val)` coercion): false for false, ±0,
NaN, the empty string, null and undefined; true otherwise. -/
def truthy : JSValue → Bool
  | JSValue.bool b => b
  | JSValue.int n => n != 0
  | JSValue.nan => false
  | JSValue.str s => s ≠ ""
  | JSValue.null => false
  | JSValue.undefined => false

/-- The `val => Boolean(val)` coercion of `getVariableType`. -/
def jsBoolean (val : JSValue) : JSValue := JSValue.bool (truthy val)

/-- Numeric value of a digit string read left to right. -/
def digitsVal (cs : List Char) : Nat :=
  cs.foldl (fun a c => 10 * a + (c.toNat - Char.toNat '0')) 0

/-- ECMAScript ToNumber on a string, modelled on the decimal-integer
fragment: surrounding whitespace is trimmed, the empty string is 0, an
optional sign followed by decimal digits is the signed value, and anything
else is NaN (hexadecimal, fractional, exponent and Infinity literals are
outside the fragment the bridge's claims exercise and map to NaN here). -/
def toNumberOfString (s : String) : JSValue :=
  let t := ((s.toList.dropWhile Char.isWhitespace).reverse.dropWhile Char.isWhitespace).reverse
  if t = [] then JSValue.int 0
  else
    match t with
    | '-' :: rest =>
      if rest ≠ [] ∧ rest.all Char.isDigit then JSValue.int (-(digitsVal rest : Int))
      else JSValue.nan
    | '+' :: rest =>
      if rest ≠ [] ∧ rest.all Char.isDigit then JSValue.int (digitsVal rest : Int)
      else JSValue.nan
    | cs =>
      if cs.all Char.isDigit then JSValue.int (digitsVal cs : Int) else JSValue.nan

/-- ECMAScript ToNumber (the `Number(val)` coercion) on the modelled values. -/
def toNumber : JSValue → JSValue
  | JSValue.bool true => JSValue.int 1
  | JSValue.bool false => JSValue.int 0
  | JSValue.int n => JSValue.int n
  | JSValue.nan => JSValue.nan
  | JSValue.str s => toNumberOfString s
  | JSValue.null => JSValue.int 0
  | JSValue.undefined => JSValue.nan

/-- The `val => Number(val)` coercion of `getVariableType`. -/
def jsNumber (val : JSValue) : JSValue := toNumber val

/-- ECMAScript ToString (the `String(val)` coercion) on the modelled values. -/
def toStringJS : JSValue → String
  | JSValue.bool true => "true"
  | JSValue.bool false => "false"
  | JSValue.int n => toString n
  | JSValue.nan => "NaN"
  | JSValue.str s => s
  | JSValue.null => "null"
  | JSValue.undefined => "undefined"

/-- The `val => String(val)` coercion of `getVariableType`. -/
def jsString (val : JSValue) : JSValue := JSValue.str (toStringJS val)

/-- A resolved type: canonical type name plus coercion function, the record
returned by `getVariableType` (src/app.js lines 89–92). -/
structure TypeDescriptor where
  name : String
  coerce : JSValue → JSValue

/-- The arms of the `switch (dt)` assigning `name` in `getVariableType`
(src/app.js lines 52–65), in source order.  A JavaScript switch runs the
first matching case, so the list is read by first match; note the two arms
for `DataType.UInt32`. -/
def nameCases : List (Nat × String) :=
  [(DataType.Boolean, "Boolean"),
   (DataType.Byte, "Byte"),
   (DataType.Double, "Double"),
   (DataType.Float, "Float"),
   (DataType.Int16, "Int16"),
   (DataType.Int32, "Int32"),
   (DataType.LocalizedText, "LocalizedText"),
   (DataType.SByte, "SByte"),
   (DataType.String, "String"),
   (DataType.UInt16, "Int16"),
   (DataType.UInt32, "UInt32"),
   (DataType.UInt32, "UInt64")]

/-- `let name = 'String'; switch (dt) ...` — first matching arm wins, the
initial value survives when no arm matches. -/
def switchName (dt : Nat) : String :=
  match nameCases.find? (fun c => c.1 == dt) with
  | some c => c.2
  | none => "String"

/-- The case labels of the numeric group of the coercion `switch (dt)`
(src/app.js lines 73–81), in source order, with the duplicated
`DataType.UInt32` label kept. -/
def numberTags : List Nat :=
  [DataType.Byte, DataType.Double, DataType.Float, DataType.Int16,
   DataType.Int32, DataType.SByte, DataType.UInt16, DataType.UInt32,
   DataType.UInt32]

/-- The case labels of the string group of the coercion switch
(src/app.js lines 84–86). -/
def textTags : List Nat := [DataType.LocalizedText, DataType.String]

/-- `let coerce = val => val; switch (dt) ...` (src/app.js lines 67–87):
the boolean, numeric and string groups, with the identity default.  The
case labels of the three groups are pairwise distinct, so the ordered
if-chain is the JavaScript switch. -/
def switchCoerce (dt : Nat) : JSValue → JSValue :=
  if dt = DataType.Boolean then jsBoolean
  else if dt ∈ numberTags then jsNumber
  else if dt ∈ textTags then jsString
  else fun val => val

/-- The pure core of `getVariableType` (src/app.js lines 47–93): the type
descriptor computed from the queried built-in data type tag. -/
def variableTypeOfTag (dt : Nat) : TypeDescriptor :=
  { name := switchName dt, coerce := switchCoerce dt }

/-- `getVariableType` (src/app.js lines 47–93): query the variable's
built-in data type over the session and build its descriptor. -/
def getVariableType (getBuiltInDataType : String → Nat) (nodeId : String) : TypeDescriptor :=
  variableTypeOfTag (getBuiltInDataType nodeId)

/-- The body of an HTTP response: `res.sendStatus` sends no payload of its
own, `res.json` a JSON value, `res.status(..).send(..)` text. -/
inductive RespBody where
  | empty
  | jsonVal (v : JSValue)
  | text (s : String)
deriving DecidableEq, Repr

/-- An HTTP response: status code and body. -/
structure HttpResponse where
  status : Nat
  body : RespBody
deriving DecidableEq, Repr

/-- The inner variant of a read result: `val.value` in the GET handler. -/
structure VariantBox where
  value : JSValue
deriving DecidableEq, Repr

/-- A `DataValue` as returned by `session.readVariableValue`; the handler
extracts `val.value.value`. -/
structure DataValue where
  value : VariantBox
deriving DecidableEq, Repr

/-- The `variableTypes` object of `main`: node id → type descriptor, with
keys in insertion order. -/
abbrev TypeIndex : Type := List (String × TypeDescriptor)

/-- Own-key lookup in the index: the descriptor stored for `id`, if the
resolution loop ever assigned one. -/
def lookupType (variableTypes : TypeIndex) (id : String) : Option TypeDescriptor :=
  List.lookup id variableTypes

/-- Modelled from the JS runtime: the property names every plain object
literal inherits from `Object.prototype`.  Reading any of them on `{}`
yields a function (or, for `__proto__`, an object) — a truthy value. -/
def objectPrototypeKeys : List String :=
  ["constructor", "hasOwnProperty", "isPrototypeOf", "propertyIsEnumerable",
   "toLocaleString", "toString", "valueOf", "__defineGetter__",
   "__defineSetter__", "__lookupGetter__", "__lookupSetter__", "__proto__"]

/-- The result of the JS property read `variableTypes[id]`, prototype chain
included: an own key yields its stored descriptor; otherwise a name of
`Object.prototype` yields an inherited function or object — truthy, but not
a descriptor; any other name yields `undefined`, the only falsy case. -/
inductive PropRead where
  | own (type : TypeDescriptor)
  | inherited
  | undef

/-- The property read `variableTypes[id]`: own keys shadow the prototype. -/
def propRead (variableTypes : TypeIndex) (id : String) : PropRead :=
  match lookupType variableTypes id with
  | some type => PropRead.own type
  | none =>
    if objectPrototypeKeys.contains id then PropRead.inherited else PropRead.undef

/-- Truthiness of a property read, as `if (!variableTypes[id])` tests it:
only `undefined` is falsy (stored descriptors and inherited prototype
members are objects or functions). -/
def truthyProp : PropRead → Bool
  | PropRead.undef => false
  | _ => true

/-- The ids of a type index, in insertion order. -/
def keysOf (variableTypes : TypeIndex) : List String :=
  variableTypes.map Prod.fst

/-- Property assignment `variableTypes[id] = v`: overwrite an existing key
in place, otherwise append. -/
def setKey (variableTypes : TypeIndex) (id : String) (v : TypeDescriptor) : TypeIndex :=
  if (keysOf variableTypes).contains id then
    variableTypes.map fun e => if e.1 = id then (id, v) else e
  else variableTypes ++ [(id, v)]

/-- The startup resolution loop of `main` (src/app.js lines 125–129):
`for (let id of variables) variableTypes[id] = await getVariableType(session, id)`.
Besides the index it returns the trace of node ids the loop queried the
session's type for, one query per iteration. -/
def buildTypeIndex (ids : List String) (resolve : String → TypeDescriptor) :
    TypeIndex × List String :=
  ids.foldl (fun acc id => (setKey acc.1 id (resolve id), acc.2 ++ [id])) ([], [])

/-- The `GET /:nodeId` handler (src/app.js lines 147–170).  The guard is
the truthiness test `if (!variableTypes[id])`, so an inherited
`Object.prototype` name passes it just like an own key; the read branch
never touches the descriptor.  The session read is modelled by
`readVariableValue`, whose `Except.error` case is a thrown (rejected) read;
the handler's try/catch turns it into a 500 response, so the handler always
produces a response. -/
def getHandler (variableTypes : TypeIndex)
    (readVariableValue : String → Except String DataValue) (id : String) : HttpResponse :=
  if !truthyProp (propRead variableTypes id) then { status := 404, body := RespBody.empty }
  else
    match readVariableValue id with
    | Except.ok val => { status := 200, body := RespBody.jsonVal val.value.value }
    | Except.error e => { status := 500, body := RespBody.text e }

/-- The argument of `session.write` built by the PUT handler
(src/app.js lines 185–194): node id, attribute id 13 (`AttributeIds.Value`),
and a variant carrying the resolved type name and the coerced body. -/
structure WriteValueInner where
  dataType : String
  value : JSValue

/-- The `value:` wrapper of the write argument. -/
structure WriteValueOuter where
  value : WriteValueInner

/-- The full `session.write` argument. -/
structure WriteRequest where
  nodeId : String
  attributeId : Nat
  value : WriteValueOuter

/-- The write outcome (`StatusCode`): a machine-checkable numeric value
(0 is the distinguished good status) and a human-readable `description`. -/
structure WriteStatus where
  value : Nat
  description : String
deriving DecidableEq, Repr

/-- Builds `session.write`'s argument exactly as the PUT handler does. -/
def mkWriteRequest (id : String) (type : TypeDescriptor) (raw : JSValue) : WriteRequest :=
  { nodeId := id
    attributeId := 13
    value := { value := { dataType := type.name, value := type.coerce raw } } }

/-- The `PUT /:nodeId` handler (src/app.js lines 172–206).  Unlike the GET
handler it wraps `await session.write(...)` in no try/catch, so a rejected
write leaves the handler as an uncaught `Except.error`; a returned status
is mapped to 204 (good status, value 0) or 400 with the description.  On an
id whose property read only hits an inherited `Object.prototype` member the
guard passes but `type.coerce` is undefined, so `type.coerce(raw)` throws a
TypeError that likewise escapes the handler. -/
def putHandler (variableTypes : TypeIndex)
    (write : WriteRequest → Except String WriteStatus) (id : String) (raw : JSValue) :
    Except String HttpResponse :=
  match propRead variableTypes id with
  | PropRead.undef => Except.ok { status := 404, body := RespBody.empty }
  | PropRead.inherited => Except.error "TypeError: type.coerce is not a function"
  | PropRead.own type =>
    match write (mkWriteRequest id type raw) with
    | Except.error e => Except.error e
    | Except.ok status =>
      if status.value = 0 then Except.ok { status := 204, body := RespBody.empty }
      else Except.ok { status := 400, body := RespBody.text status.description }

/-- A one-variable type index for concrete gateway runs. -/
def tiRead : TypeIndex := [("ns=1;i=1", variableTypeOfTag DataType.Int32)]

/-- A session read that succeeds with the value 5. -/
def readOK : String → Except String DataValue := fun _ =>
  Except.ok { value := { value := JSValue.int 5 } }

/-- A session read that rejects with a timeout error. -/
def readFail : String → Except String DataValue := fun _ =>
  Except.error "Error: timeout"

/-- A session write that reports the good status (value 0). -/
def writeGood : WriteRequest → Except String WriteStatus := fun _ =>
  Except.ok { value := 0, description := "Good" }

/-- A session write that reports a non-good status. -/
def writeBad : WriteRequest → Except String WriteStatus := fun _ =>
  Except.ok { value := 2155085824, description := "BadTypeMismatch" }

/-- A session write that rejects (throws) instead of returning a status. -/
def writeThrow : WriteRequest → Except String WriteStatus := fun _ =>
  Except.error "Error: timeout"

/-- A type index whose only variable has native type UInt16. -/
def tiU : TypeIndex := [("ns=1;i=1", variableTypeOfTag DataType.UInt16)]

/-- A session write whose reported status description echoes the dataType
name it was sent, to observe what the handler passes to `session.write`. -/
def writeEcho : WriteRequest → Except String WriteStatus := fun req =>
  Except.ok { value := 1, description := req.value.value.dataType }

theorem appendNew_nodup (ids : List String) :
    ∀ vars : List String, vars.Nodup → (appendNew vars ids).Nodup := by
  induction ids with
  | nil => intro vars h; exact h
  | cons id rest ih =>
    intro vars h
    by_cases hc : id ∈ vars
    · simpa [appendNew, hc] using ih vars h
    · have hnd : (vars ++ [id]).Nodup := by
        simp [List.nodup_append, h, hc]
      simpa [appendNew, hc] using ih (vars ++ [id]) hnd

theorem collectStep_foldl_nodup (g : Reference → Option (List String)) :
    ∀ (refs : List Reference) (acc : Option (List String)),
      (∀ l, acc = some l → l.Nodup) →
      ∀ l, refs.foldl (collectStep g) acc = some l → l.Nodup := by
  intro refs
  induction refs with
  | nil => intro acc hacc l hl; exact hacc l hl
  | cons child rest ih =>
    intro acc hacc l hl
    refine ih (collectStep g acc child) ?_ l (by simpa using hl)
    intro l' hl'
    match hacc' : acc with
    | none => simp [collectStep, hacc'] at hl'
    | some vars =>
      match hg : g child with
      | none => simp [collectStep, hg] at hl'
      | some childVariables =>
        have : l' = appendNew vars childVariables := by
          simp [collectStep, hg] at hl'
          exact hl'.symm
        subst this
        exact appendNew_nodup childVariables vars (hacc vars rfl)

/-- Claim C1: for every address-space snapshot (browse function) and every root id,
a list returned by `findVariables` contains no duplicate node id, and every
id in it appears exactly once, even when a variable is reachable via several
container paths: each id is membership-checked before being appended. -/
theorem findVariables_nodup (browse : Browse) (fuel : Nat) (root : String)
    (l : List String) (h : findVariables browse fuel root = some l) :
    l.Nodup ∧ ∀ id ∈ l, l.count id = 1 := by
  have hnd : l.Nodup := by
    match fuel with
    | 0 => simp [findVariables] at h
    | fuel + 1 =>
      exact collectStep_foldl_nodup _ (browse root) (some [])
        (by intro l' hl'; simp_all) l h
  exact ⟨hnd, fun id hid => List.count_eq_one_of_mem hnd hid⟩

/-- Witness for C1 on the diamond-shaped snapshot: the variable `v` is
reachable through both containers `A` and `B` yet is listed once. -/
theorem findVariables_nodup_witness :
    findVariables diamondBrowse 3 "root" = some ["v"] ∧
      (["v"] : List String).Nodup ∧ ∀ id ∈ (["v"] : List String), (["v"] : List String).count id = 1 :=
  ⟨by decide, findVariables_nodup diamondBrowse 3 "root" ["v"] (by decide)⟩

/-- Claim C9: discovery is deterministic.  If two snapshots answer every browse
query identically, `findVariables` returns identical results for the same
fuel and root — in particular the same set of ids; running discovery twice
on an unchanged address space yields the same list. -/
theorem findVariables_deterministic (browse1 browse2 : Browse) (fuel : Nat)
    (root : String) (h : ∀ n, browse1 n = browse2 n) :
    findVariables browse1 fuel root = findVariables browse2 fuel root := by
  have : browse1 = browse2 := funext h
  rw [this]

/-- Witness for C9: two runs over the same diamond snapshot agree. -/
theorem findVariables_deterministic_witness :
    findVariables diamondBrowse 3 "root" = findVariables diamondBrowse 3 "root" :=
  findVariables_deterministic diamondBrowse diamondBrowse 3 "root" (fun _ => rfl)

theorem switchName_eq_of_not_mem (dt : Nat) (h : dt ∉ nameCases.map Prod.fst) :
    switchName dt = "String" := by
  have hfind : nameCases.find? (fun c => c.1 == dt) = none := by
    rw [List.find?_eq_none]
    intro c hc
    simp only [beq_iff_eq]
    intro he
    exact h (he ▸ List.mem_map_of_mem Prod.fst hc)
  simp [switchName, hfind]

theorem switchCoerce_eq_of_not_mem (dt : Nat) (h : dt ∉ nameCases.map Prod.fst) :
    ∀ val, switchCoerce dt val = val := by
  have hb : ¬ dt = DataType.Boolean := by
    intro he
    exact h (by rw [he]; decide)
  have hn : dt ∉ numberTags := fun hm =>
    h ((by decide : numberTags ⊆ nameCases.map Prod.fst) hm)
  have ht : dt ∉ textTags := fun hm =>
    h ((by decide : textTags ⊆ nameCases.map Prod.fst) hm)
  intro val
  simp [switchCoerce, hb, hn, ht]

/-- Claim C5: a built-in type tag matched by no arm of the switch table resolves
to the default descriptor: canonical name `String` and the identity
passthrough coercion. -/
theorem unmapped_type_default (dt : Nat) (h : dt ∉ nameCases.map Prod.fst) :
    (variableTypeOfTag dt).name = "String" ∧
      ∀ val, (variableTypeOfTag dt).coerce val = val :=
  ⟨switchName_eq_of_not_mem dt h, switchCoerce_eq_of_not_mem dt h⟩

/-- Witness for C5 at the unmapped tag `DataType.DateTime` (13). -/
theorem unmapped_type_default_witness :
    DataType.DateTime ∉ nameCases.map Prod.fst ∧
      (variableTypeOfTag DataType.DateTime).name = "String" ∧
      (variableTypeOfTag DataType.DateTime).coerce (JSValue.int 9) = JSValue.int 9 :=
  ⟨by decide, (unmapped_type_default DataType.DateTime (by decide)).1,
    (unmapped_type_default DataType.DateTime (by decide)).2 (JSValue.int 9)⟩

/-- Claim C6: the name switch has two arms for `DataType.UInt32` — the eleventh
arm maps it to `UInt32` and the twelfth to `UInt64` — and only the first
matching arm runs, so the resolved name for a UInt32 variable is `UInt32`
and no tag at all resolves to `UInt64` (the second arm is unreachable). -/
theorem uint32_duplicate_arm :
    (nameCases.map Prod.fst).count DataType.UInt32 = 2 ∧
      nameCases[10]? = some (DataType.UInt32, "UInt32") ∧
      nameCases[11]? = some (DataType.UInt32, "UInt64") ∧
      (variableTypeOfTag DataType.UInt32).name = "UInt32" ∧
      ∀ dt : Nat, switchName dt ∈
        ["Boolean", "Byte", "Double", "Float", "Int16", "Int32",
         "LocalizedText", "SByte", "String", "UInt32"] := by
  refine ⟨by decide, by decide, by decide, by decide, ?_⟩
  intro dt
  by_cases h : dt ∈ nameCases.map Prod.fst
  · have hl : nameCases.map Prod.fst = [1, 3, 11, 10, 4, 6, 21, 2, 12, 5, 7, 7] := by decide
    rw [hl] at h
    fin_cases h <;> decide
  · rw [switchName_eq_of_not_mem dt h]
    decide

/-- Witness for C6 at the unmapped tag 42: the resolved name is among the
reachable names, which exclude `UInt64`. -/
theorem uint32_duplicate_arm_witness :
    switchName 42 ∈
      ["Boolean", "Byte", "Double", "Float", "Int16", "Int32",
       "LocalizedText", "SByte", "String", "UInt32"] :=
  uint32_duplicate_arm.2.2.2.2 42

/-- Claim C7: the coercion examples.  A boolean-typed variable coerces the string
`"true"` to the boolean `true`; an Int32-typed variable coerces the string
`"42"` to the number `42`; String- and LocalizedText-typed variables coerce
the number `7` to the string `"7"`. -/
theorem coercion_examples :
    (variableTypeOfTag DataType.Boolean).coerce (JSValue.str "true") = JSValue.bool true ∧
      (variableTypeOfTag DataType.Int32).coerce (JSValue.str "42") = JSValue.int 42 ∧
      (variableTypeOfTag DataType.String).coerce (JSValue.int 7) = JSValue.str "7" ∧
      (variableTypeOfTag DataType.LocalizedText).coerce (JSValue.int 7) = JSValue.str "7" := by
  decide

/-- Claim C2 as stated is false on the code: `toString` is not a key of the
type index, yet the GET handler does not answer 404 for it.  The guard
`if (!variableTypes[id])` reads through the prototype chain, finds the
truthy inherited `Object.prototype.toString`, and the handler issues the
session read and answers 200 (here) or 500. -/
theorem getHandler_404_iff_counterexample :
    lookupType tiRead "toString" = none ∧
      keysOf tiRead = ["ns=1;i=1"] ∧
      getHandler tiRead readOK "toString" = ⟨200, RespBody.jsonVal (JSValue.int 5)⟩ ∧
      ¬ (getHandler tiRead readOK "toString").status = 404 :=
  ⟨rfl, rfl, rfl, by decide⟩

/-- Claim C2 amended: the iff must except the property names inherited from
`Object.prototype`.  The GET handler answers 404 with an empty body exactly
when the id is neither a key of the type index nor an `Object.prototype`
name; whenever the property read is truthy — a key, or such an inherited
name — it issues the session read and answers 200 with the read value, or
500 with the error detail. -/
theorem getHandler_404_iff_amended (tI : TypeIndex)
    (read : String → Except String DataValue) (id : String) :
    ((getHandler tI read id).status = 404 ↔
      (lookupType tI id = none ∧ id ∉ objectPrototypeKeys)) ∧
      (lookupType tI id = none ∧ id ∉ objectPrototypeKeys →
        getHandler tI read id = ⟨404, RespBody.empty⟩) ∧
      (lookupType tI id ≠ none ∨ id ∈ objectPrototypeKeys →
        (∀ val, read id = Except.ok val →
          getHandler tI read id = ⟨200, RespBody.jsonVal val.value.value⟩) ∧
        (∀ e, read id = Except.error e →
          getHandler tI read id = ⟨500, RespBody.text e⟩)) := by
  cases hl : lookupType tI id with
  | some type =>
    have hp : propRead tI id = PropRead.own type := by simp [propRead, hl]
    refine ⟨?_, ?_, ?_⟩
    · cases hr : read id with
      | ok val => simp [getHandler, hp, truthyProp, hr]
      | error e => simp [getHandler, hp, truthyProp, hr]
    · rintro ⟨h1, _⟩
      simp at h1
    · intro _
      exact ⟨fun val hr => by simp [getHandler, hp, truthyProp, hr],
        fun e hr => by simp [getHandler, hp, truthyProp, hr]⟩
  | none =>
    by_cases hm : id ∈ objectPrototypeKeys
    · have hp : propRead tI id = PropRead.inherited := by simp [propRead, hl, hm]
      refine ⟨?_, ?_, ?_⟩
      · cases hr : read id with
        | ok val => simp [getHandler, hp, truthyProp, hr, hm]
        | error e => simp [getHandler, hp, truthyProp, hr, hm]
      · rintro ⟨_, h2⟩
        exact absurd hm h2
      · intro _
        exact ⟨fun val hr => by simp [getHandler, hp, truthyProp, hr],
          fun e hr => by simp [getHandler, hp, truthyProp, hr]⟩
    · have hp : propRead tI id = PropRead.undef := by simp [propRead, hl, hm]
      refine ⟨?_, ?_, ?_⟩
      · simp [getHandler, hp, truthyProp, hm]
      · intro _
        simp [getHandler, hp, truthyProp]
      · intro hcase
        rcases hcase with h | h
        · exact absurd rfl h
        · exact absurd h hm

/-- Witness for C2 (amended): an id that is neither a key nor a prototype
name gets 404 with empty body; a key and the inherited name `toString` both
take the read branch and answer 200 with the read value. -/
theorem getHandler_404_iff_amended_witness :
    getHandler tiRead readOK "ns=1;i=99" = ⟨404, RespBody.empty⟩ ∧
      getHandler tiRead readOK "ns=1;i=1" = ⟨200, RespBody.jsonVal (JSValue.int 5)⟩ ∧
      getHandler tiRead readOK "toString" = ⟨200, RespBody.jsonVal (JSValue.int 5)⟩ :=
  ⟨(getHandler_404_iff_amended tiRead readOK "ns=1;i=99").2.1 ⟨rfl, by decide⟩,
    ((getHandler_404_iff_amended tiRead readOK "ns=1;i=1").2.2
        (Or.inl fun h => Option.noConfusion h)).1 { value := { value := JSValue.int 5 } } rfl,
    ((getHandler_404_iff_amended tiRead readOK "toString").2.2
        (Or.inr (by decide))).1 { value := { value := JSValue.int 5 } } rfl⟩

/-- Claim C3 fails on the code: the GET handler's try/catch turns a rejected read
into a 500 response, but the PUT handler wraps `session.write` in no
try/catch, so the same session error escapes the PUT handler uncaught
(an `Except.error`, not an HTTP response). -/
theorem putHandler_uncaught_write_error :
    putHandler tiRead writeThrow "ns=1;i=1" (JSValue.int 1) = Except.error "Error: timeout" ∧
      getHandler tiRead readFail "ns=1;i=1" = ⟨500, RespBody.text "Error: timeout"⟩ :=
  ⟨rfl, rfl⟩

/-- Claim C4: on a known id the PUT handler sends a typed write whose dataType is
the descriptor's name and whose value is the coerced raw body, then maps
the returned status: value 0 to 204 with empty body, any other value to 400
with the status description as body. -/
theorem putHandler_write_outcome (tI : TypeIndex)
    (write : WriteRequest → Except String WriteStatus) (id : String) (raw : JSValue)
    (type : TypeDescriptor) (st : WriteStatus)
    (hl : lookupType tI id = some type)
    (hw : write (mkWriteRequest id type raw) = Except.ok st) :
    (mkWriteRequest id type raw).value.value.dataType = type.name ∧
      (mkWriteRequest id type raw).value.value.value = type.coerce raw ∧
      putHandler tI write id raw =
        (if st.value = 0 then Except.ok ⟨204, RespBody.empty⟩
         else Except.ok ⟨400, RespBody.text st.description⟩) := by
  refine ⟨rfl, rfl, ?_⟩
  have hp : propRead tI id = PropRead.own type := by simp [propRead, hl]
  simp [putHandler, hp, hw]

/-- Witness for C4: a good status yields 204 No Content, a non-good status
with description `BadTypeMismatch` yields 400 with that description. -/
theorem putHandler_write_outcome_witness :
    putHandler tiRead writeGood "ns=1;i=1" (JSValue.str "123") =
        Except.ok ⟨204, RespBody.empty⟩ ∧
      putHandler tiRead writeBad "ns=1;i=1" (JSValue.str "123") =
        Except.ok ⟨400, RespBody.text "BadTypeMismatch"⟩ := by
  constructor
  · have h := putHandler_write_outcome tiRead writeGood "ns=1;i=1" (JSValue.str "123")
      (variableTypeOfTag DataType.Int32) { value := 0, description := "Good" } rfl rfl
    simpa using h.2.2
  · have h := putHandler_write_outcome tiRead writeBad "ns=1;i=1" (JSValue.str "123")
      (variableTypeOfTag DataType.Int32)
      { value := 2155085824, description := "BadTypeMismatch" } rfl rfl
    simpa using h.2.2

theorem buildTypeIndex_trace (resolve : String → TypeDescriptor) :
    ∀ (ids : List String) (m : TypeIndex) (qs : List String),
      (ids.foldl (fun acc id => (setKey acc.1 id (resolve id), acc.2 ++ [id])) (m, qs)).2 =
        qs ++ ids := by
  intro ids
  induction ids with
  | nil => intro m qs; simp
  | cons id rest ih =>
    intro m qs
    simpa using ih (setKey m id (resolve id)) (qs ++ [id])

theorem buildTypeIndex_index (resolve : String → TypeDescriptor) :
    ∀ (ids : List String) (m : TypeIndex) (qs : List String), ids.Nodup →
      (∀ id ∈ ids, id ∉ keysOf m) →
      (ids.foldl (fun acc id => (setKey acc.1 id (resolve id), acc.2 ++ [id])) (m, qs)).1 =
        m ++ ids.map fun id => (id, resolve id) := by
  intro ids
  induction ids with
  | nil => intro m qs _ _; simp
  | cons id rest ih =>
    intro m qs hnd hfresh
    have hid : id ∉ keysOf m := hfresh id (by simp)
    have hset : setKey m id (resolve id) = m ++ [(id, resolve id)] := by
      simp [setKey, hid]
    have hfresh' : ∀ id' ∈ rest, id' ∉ keysOf (m ++ [(id, resolve id)]) := by
      intro id' hid'
      have h1 : id' ∉ keysOf m := hfresh id' (by simp [hid'])
      have h2 : id' ≠ id := by
        intro he
        exact (List.nodup_cons.mp hnd).1 (he ▸ hid')
      have hk : keysOf (m ++ [(id, resolve id)]) = keysOf m ++ [id] := by
        simp [keysOf]
      rw [hk]
      intro hmem
      rcases List.mem_append.mp hmem with h | h
      · exact h1 h
      · exact h2 (by simpa using h)
    have := ih (m ++ [(id, resolve id)]) (qs ++ [id]) (List.nodup_cons.mp hnd).2 hfresh'
    simpa [hset, List.append_assoc] using this

theorem lookup_map_self (resolve : String → TypeDescriptor) :
    ∀ (ids : List String) (id : String), id ∈ ids →
      List.lookup id (ids.map fun i => (i, resolve i)) = some (resolve id) := by
  intro ids
  induction ids with
  | nil => intro id h; simp at h
  | cons a rest ih =>
    intro id h
    by_cases ha : a = id
    · subst ha; simp [List.lookup]
    · have : id ∈ rest := by
        rcases List.mem_cons.mp h with h1 | h1
        · exact absurd h1.symm ha
        · exact h1
      have hbeq : (id == a) = false := by simpa using Ne.symm ha
      simp [List.lookup, hbeq, ih id this]

/-- Claim C8: after the startup resolution loop, the type index has exactly one
entry per discovered id — its keys are exactly the discovered list, each
key once — every discovered id maps to its resolved descriptor, and the
loop queried the type of each discovered id exactly once. -/
theorem typeIndex_coverage (ids : List String) (resolve : String → TypeDescriptor)
    (hnd : ids.Nodup) :
    (buildTypeIndex ids resolve).2 = ids ∧
      keysOf (buildTypeIndex ids resolve).1 = ids ∧
      (∀ id ∈ ids, lookupType (buildTypeIndex ids resolve).1 id = some (resolve id)) ∧
      (∀ id ∈ ids,
        (keysOf (buildTypeIndex ids resolve).1).count id = 1 ∧
          ((buildTypeIndex ids resolve).2).count id = 1) := by
  have htrace : (buildTypeIndex ids resolve).2 = ids := by
    simpa using buildTypeIndex_trace resolve ids [] []
  have hindex : (buildTypeIndex ids resolve).1 = ids.map fun id => (id, resolve id) := by
    simpa using buildTypeIndex_index resolve ids [] [] hnd (by simp [keysOf])
  have hkeys : keysOf (buildTypeIndex ids resolve).1 = ids := by
    rw [keysOf, hindex, List.map_map]
    have hcomp : (Prod.fst ∘ fun id => (id, resolve id)) = fun id : String => id := rfl
    rw [hcomp]
    exact List.map_id ids
  refine ⟨htrace, hkeys, ?_, ?_⟩
  · intro id hid
    rw [lookupType, hindex]
    exact lookup_map_self resolve ids id hid
  · intro id hid
    rw [hkeys, htrace]
    exact ⟨List.count_eq_one_of_mem hnd hid, List.count_eq_one_of_mem hnd hid⟩

/-- Witness for C8 on a two-variable discovery list. -/
theorem typeIndex_coverage_witness :
    (buildTypeIndex ["ns=1;i=1", "ns=1;i=2"] (fun _ => variableTypeOfTag DataType.Int32)).2 =
        ["ns=1;i=1", "ns=1;i=2"] ∧
      keysOf (buildTypeIndex ["ns=1;i=1", "ns=1;i=2"]
          (fun _ => variableTypeOfTag DataType.Int32)).1 = ["ns=1;i=1", "ns=1;i=2"] ∧
      lookupType (buildTypeIndex ["ns=1;i=1", "ns=1;i=2"]
          (fun _ => variableTypeOfTag DataType.Int32)).1 "ns=1;i=2" =
        some (variableTypeOfTag DataType.Int32) := by
  have h := typeIndex_coverage ["ns=1;i=1", "ns=1;i=2"]
    (fun _ => variableTypeOfTag DataType.Int32) (by decide)
  exact ⟨h.1, h.2.1, h.2.2.1 "ns=1;i=2" (by decide)⟩

/-- Claim C10: the switch maps the unsigned UInt16 tag to the signed canonical
name `Int16`, and on a variable resolved with that descriptor the PUT
handler issues its typed write with exactly that dataType name. -/
theorem uint16_maps_to_int16 :
    (variableTypeOfTag DataType.UInt16).name = "Int16" ∧
      (∀ id raw,
        (mkWriteRequest id (variableTypeOfTag DataType.UInt16) raw).value.value.dataType =
          "Int16") ∧
      ∀ (tI : TypeIndex) (write : WriteRequest → Except String WriteStatus)
        (id : String) (raw : JSValue),
        lookupType tI id = some (variableTypeOfTag DataType.UInt16) →
        putHandler tI write id raw =
          match write (mkWriteRequest id (variableTypeOfTag DataType.UInt16) raw) with
          | Except.error e => Except.error e
          | Except.ok st =>
            if st.value = 0 then Except.ok ⟨204, RespBody.empty⟩
            else Except.ok ⟨400, RespBody.text st.description⟩ := by
  refine ⟨rfl, fun id raw => rfl, ?_⟩
  intro tI write id raw hl
  have hp : propRead tI id = PropRead.own (variableTypeOfTag DataType.UInt16) := by
    simp [propRead, hl]
  simp [putHandler, hp]

/-- Witness for C10: with a write that echoes the dataType it received into
the status description, the 400 body shows `Int16` was sent. -/
theorem uint16_maps_to_int16_witness :
    putHandler tiU writeEcho "ns=1;i=1" (JSValue.str "5") =
      Except.ok ⟨400, RespBody.text "Int16"⟩ := by
  have h := uint16_maps_to_int16.2.2 tiU writeEcho "ns=1;i=1" (JSValue.str "5") rfl
  exact h.trans rfl

end OpcuaBridge
